import Mathlib

/-!
Shallow embedding of the HTracker entry/tracker server actions
(src/app/actions/entries.ts, src/app/actions/trackers.ts, prisma/schema.prisma).

Modelling conventions:
* Timestamps (JS Date values) are integers counting milliseconds since the
  epoch, in a fixed-offset time zone.
* Numeric entry values (JS number / prisma Float) are modelled as integers;
  every claim under consideration only involves integral values.
* The document store is a pair of lists keyed by id; prisma update / delete
  on a missing id throws, modelled with Except.
* A prisma $transaction body is a function DB -> Except String (result, DB);
  a thrown error aborts the transaction, so the action boundary resumes with
  the original state and converts the error to a failure envelope.
* A prisma write to the embedded statistics composite replaces the whole
  object; fields not mentioned in the write receive their schema defaults
  (totalEntries 0, totalTime 0, totalValue 0, totalCustom "").
-/

namespace HTracker

/-- Tracker type enum (prisma/schema.prisma). -/
inductive TrackerType where
  | TIMER
  | COUNTER
  | AMOUNT
  | OCCURRENCE
  | CUSTOM
deriving DecidableEq, Repr

/-- Tracker status enum (prisma/schema.prisma). -/
inductive TrackerStatus where
  | ACTIVE
  | INACTIVE
  | ARCHIVED
deriving DecidableEq, Repr

/-- Schema default for Tracker.status (prisma/schema.prisma, default ACTIVE). -/
def trackerStatusDefault : TrackerStatus := TrackerStatus.ACTIVE

/-- Embedded TrackerStatistics composite (prisma/schema.prisma).
totalEntries is a required Int, the other fields are nullable. -/
structure TrackerStatistics where
  totalEntries : Int
  totalTime : Option Int
  totalValue : Option Int
  totalCustom : Option String
deriving DecidableEq, Repr

/-- TrackerEntry row (prisma/schema.prisma). -/
structure Entry where
  id : Nat
  trackerId : Nat
  startTime : Option Int
  endTime : Option Int
  value : Option Int
  date : Int
  note : Option String
  tags : List String
deriving DecidableEq, Repr

/-- Tracker row (prisma/schema.prisma). -/
structure Tracker where
  id : Nat
  name : String
  description : Option String
  ttype : TrackerType
  status : TrackerStatus
  tags : List String
  color : Option String
  icon : Option String
  createdAt : Int
  updatedAt : Int
  userId : String
  statistics : Option TrackerStatistics
deriving DecidableEq, Repr

/-- The two mongo collections plus fresh-id counters for document creation. -/
structure DB where
  trackers : List Tracker
  entries : List Entry
  nextTrackerId : Nat
  nextEntryId : Nat
deriving DecidableEq, Repr

/-- Response envelope of the entry actions (entries.ts, EntryActionResponse). -/
inductive EntryActionResponse (α : Type) where
  | success (data : α)
  | failure (error : String)
deriving DecidableEq, Repr

/-- Response envelope of the tracker actions (trackers.ts, TrackerActionResponse). -/
inductive TrackerActionResponse (α : Type) where
  | success (data : α)
  | failure (error : String)
deriving DecidableEq, Repr

/-- JavaScript truthiness of an optional number: null, undefined and 0 are falsy. -/
def jsTruthy : Option Int → Bool
  | none => false
  | some n => n != 0

/-- Milliseconds per day. -/
def msPerDay : Int := 86400000

/-- Math.round((endMs - startMs) / 1000): JS rounds half toward positive
infinity, which is floor(x + 1/2). -/
def durationSeconds (startMs endMs : Int) : Int :=
  Int.fdiv (endMs - startMs + 500) 1000

/-- prisma.tracker.findUnique by id. -/
def findTracker (db : DB) (tid : Nat) : Option Tracker :=
  db.trackers.find? (fun t => t.id == tid)

/-- prisma.trackerEntry.findUnique by id. -/
def findEntry (db : DB) (eid : Nat) : Option Entry :=
  db.entries.find? (fun e => e.id == eid)

/-- Apply an update to the tracker row with the given id. -/
def updateById (l : List Tracker) (tid : Nat) (f : Tracker → Tracker) : List Tracker :=
  l.map (fun t => if t.id == tid then f t else t)

/-- Apply an update to the entry row with the given id. -/
def updateEntryById (l : List Entry) (eid : Nat) (f : Entry → Entry) : List Entry :=
  l.map (fun e => if e.id == eid then f e else e)

/-- tracker.statistics?.totalEntries with JS fallback 0. -/
def statTotalEntries (s : Option TrackerStatistics) : Int :=
  (s.map TrackerStatistics.totalEntries).getD 0

/-- tracker.statistics?.totalTime with JS fallback 0. -/
def statTotalTime (s : Option TrackerStatistics) : Int :=
  (Option.bind s TrackerStatistics.totalTime).getD 0

/-- tracker.statistics?.totalValue with JS fallback 0. -/
def statTotalValue (s : Option TrackerStatistics) : Int :=
  (Option.bind s TrackerStatistics.totalValue).getD 0

/-- Total entries recorded on the tracker with the given id. -/
def trackerTotalEntries (db : DB) (tid : Nat) : Int :=
  statTotalEntries (Option.bind (findTracker db tid) Tracker.statistics)

/-- Total time recorded on the tracker with the given id. -/
def trackerTotalTime (db : DB) (tid : Nat) : Int :=
  statTotalTime (Option.bind (findTracker db tid) Tracker.statistics)

/-- Total value recorded on the tracker with the given id. -/
def trackerTotalValue (db : DB) (tid : Nat) : Int :=
  statTotalValue (Option.bind (findTracker db tid) Tracker.statistics)

/-- A statistics write that mentions totalEntries and totalTime; the other
composite fields take their schema defaults. -/
def writeStatsTimer (entries time : Int) : TrackerStatistics :=
  { totalEntries := entries, totalTime := some time,
    totalValue := some 0, totalCustom := some "" }

/-- A statistics write that mentions totalEntries and totalValue; the other
composite fields take their schema defaults. -/
def writeStatsValue (entries value : Int) : TrackerStatistics :=
  { totalEntries := entries, totalTime := some 0,
    totalValue := some value, totalCustom := some "" }

/-- The update data clause bumping only the updatedAt timestamp. -/
def bumpUpdatedAt (now : Int) (t : Tracker) : Tracker := { t with updatedAt := now }

/-- The update data clause writing a statistics object (updatedAt is bumped by
the prisma updatedAt attribute). -/
def setTrackerStats (now : Int) (stats : TrackerStatistics) (t : Tracker) : Tracker :=
  { t with statistics := some stats, updatedAt := now }

/-- The update data clause setting the tracker status. -/
def setTrackerStatus (now : Int) (st : TrackerStatus) (t : Tracker) : Tracker :=
  { t with status := st, updatedAt := now }

/-- The update data clause of stopTimerEntry: status, statistics and
timestamp together. -/
def setTrackerStopped (now : Int) (stats : TrackerStatistics) (t : Tracker) : Tracker :=
  { t with status := TrackerStatus.INACTIVE, updatedAt := now, statistics := some stats }

/-- The update data clause writing the computed duration into the value field. -/
def setEntryValue (v : Int) (en : Entry) : Entry := { en with value := some v }

/-- Input of createEntry (EntrySchema with the date default already applied). -/
structure CreateEntryInput where
  trackerId : Nat
  startTime : Option Int := none
  endTime : Option Int := none
  value : Option Int := none
  note : Option String := none
  tags : List String := []
  date : Int
deriving DecidableEq, Repr

/-- The EntrySchema checks that can fail on a well-typed input. -/
def validateEntry (input : CreateEntryInput) : Except String Unit :=
  match input.note with
  | some n =>
      if n.length > 500 then Except.error "Note cannot exceed 500 characters"
      else Except.ok ()
  | none => Except.ok ()

/-- The entry row created from a validated input. -/
def newEntryOf (input : CreateEntryInput) (eid : Nat) : Entry :=
  { id := eid, trackerId := input.trackerId, startTime := input.startTime,
    endTime := input.endTime, value := input.value, date := input.date,
    note := input.note, tags := input.tags }

/-- Transaction body of createEntry (entries.ts lines 40 to 146). -/
def createEntryTx (input : CreateEntryInput) (now : Int) (db : DB) :
    Except String (Nat × DB) :=
  let eid := db.nextEntryId
  let db1 : DB := { db with entries := db.entries ++ [newEntryOf input eid],
                            nextEntryId := eid + 1 }
  let db2 : DB :=
    match input.startTime, input.endTime with
    | some s, some e =>
        if jsTruthy input.value then db1
        else
          { db1 with entries := updateEntryById db1.entries eid (setEntryValue (durationSeconds s e)) }
    | _, _ => db1
  match findTracker db2 input.trackerId with
  | none => Except.error "Record to update not found"
  | some _ =>
    let db3 : DB :=
      { db2 with trackers := updateById db2.trackers input.trackerId (bumpUpdatedAt now) }
    match findTracker db3 input.trackerId with
    | none => Except.error "Tracker not found"
    | some tracker =>
      let db4 : DB :=
        match tracker.ttype with
        | TrackerType.TIMER =>
          match input.startTime, input.endTime with
          | some s, some e =>
              let stats := writeStatsTimer
                (statTotalEntries tracker.statistics + 1)
                (statTotalTime tracker.statistics + durationSeconds s e)
              { db3 with trackers := updateById db3.trackers input.trackerId (setTrackerStats now stats) }
          | _, _ => db3
        | TrackerType.COUNTER | TrackerType.AMOUNT =>
          match input.value with
          | some v =>
              let stats := writeStatsValue
                (statTotalEntries tracker.statistics + 1)
                (statTotalValue tracker.statistics + v)
              { db3 with trackers := updateById db3.trackers input.trackerId (setTrackerStats now stats) }
          | none => db3
        | TrackerType.OCCURRENCE | TrackerType.CUSTOM =>
            let stats : TrackerStatistics :=
              { totalEntries := statTotalEntries tracker.statistics + 1,
                totalTime := some 0, totalValue := some 0,
                totalCustom :=
                  match tracker.statistics with
                  | none => some ""
                  | some s0 => s0.totalCustom }
            { db3 with trackers := updateById db3.trackers input.trackerId (setTrackerStats now stats) }
      Except.ok (eid, db4)

/-- createEntry action (entries.ts lines 32 to 166): validate, run the
transaction, catch any thrown error into the failure envelope.  On error the
transaction is rolled back, so the state is returned unchanged. -/
def createEntry (input : CreateEntryInput) (now : Int) (db : DB) :
    EntryActionResponse Nat × DB :=
  match validateEntry input with
  | Except.error msg =>
      (EntryActionResponse.failure ("Validation failed: " ++ msg), db)
  | Except.ok _ =>
    match createEntryTx input now db with
    | Except.ok (eid, db2) => (EntryActionResponse.success eid, db2)
    | Except.error _ => (EntryActionResponse.failure "Failed to create entry", db)

/-- Transaction body of deleteEntry (entries.ts lines 362 to 451). -/
def deleteEntryTx (id : Nat) (now : Int) (db : DB) : Except String (Entry × DB) :=
  match findEntry db id with
  | none => Except.error "Entry not found"
  | some entry =>
    match findTracker db entry.trackerId with
    | none => Except.error "Tracker not found"
    | some tracker =>
      let db1 : DB := { db with entries := db.entries.filter (fun e => !(e.id == id)) }
      let db2 : DB :=
        match tracker.ttype with
        | TrackerType.TIMER =>
          if entry.startTime.isSome && entry.endTime.isSome && jsTruthy entry.value then
            let stats := writeStatsTimer
              (max 0 (statTotalEntries tracker.statistics - 1))
              (max 0 (statTotalTime tracker.statistics - (entry.value.getD 0)))
            { db1 with trackers := updateById db1.trackers entry.trackerId (setTrackerStats now stats) }
          else db1
        | TrackerType.COUNTER | TrackerType.AMOUNT =>
          match entry.value with
          | some v =>
            let stats := writeStatsValue
              (max 0 (statTotalEntries tracker.statistics - 1))
              (max 0 (statTotalValue tracker.statistics - v))
            { db1 with trackers := updateById db1.trackers entry.trackerId (setTrackerStats now stats) }
          | none => db1
        | TrackerType.OCCURRENCE | TrackerType.CUSTOM =>
          let stats : TrackerStatistics :=
            { totalEntries := max 0 (statTotalEntries tracker.statistics - 1),
              totalTime := some 0, totalValue := some 0,
              totalCustom :=
                match tracker.statistics with
                | none => some ""
                | some s0 => s0.totalCustom }
          { db1 with trackers := updateById db1.trackers entry.trackerId (setTrackerStats now stats) }
      Except.ok (entry, db2)

/-- deleteEntry action (entries.ts lines 357 to 461). -/
def deleteEntry (id : Nat) (now : Int) (db : DB) : EntryActionResponse Nat × DB :=
  match deleteEntryTx id now db with
  | Except.ok (_, db2) => (EntryActionResponse.success id, db2)
  | Except.error _ => (EntryActionResponse.failure "Failed to delete entry", db)

/-- Input of updateEntry (EntrySchema.partial note: every field may be absent;
for nullable schema fields a present value can itself be null). -/
structure UpdateEntryInput where
  trackerId : Option Nat := none
  startTime : Option (Option Int) := none
  endTime : Option (Option Int) := none
  value : Option (Option Int) := none
  note : Option (Option String) := none
  tags : Option (List String) := none
  date : Option Int := none
deriving DecidableEq, Repr

/-- Collapse an absent-or-nullable field to its JS value for truthiness tests
(absent and null both behave as null). -/
def joinOpt {α : Type} (x : Option (Option α)) : Option α := x.getD none

/-- JavaScript or-chain for two optional object values. -/
def jsOrOpt {α : Type} (a b : Option α) : Option α :=
  match a with
  | some x => some x
  | none => b

/-- The partial EntrySchema checks that can fail on a well-typed input. -/
def validateUpdateEntry (input : UpdateEntryInput) : Except String Unit :=
  match input.note with
  | some (some n) =>
      if n.length > 500 then Except.error "Note cannot exceed 500 characters"
      else Except.ok ()
  | _ => Except.ok ()

/-- prisma.trackerEntry.update data clause: apply exactly the present fields. -/
def applyEntryUpdate (u : UpdateEntryInput) (e : Entry) : Entry :=
  { e with trackerId := u.trackerId.getD e.trackerId,
           startTime := u.startTime.getD e.startTime,
           endTime := u.endTime.getD e.endTime,
           value := u.value.getD e.value,
           note := u.note.getD e.note,
           tags := u.tags.getD e.tags,
           date := u.date.getD e.date }

/-- Sum of the value column over a list of rows, with the JS fallback 0 used
for a null aggregate result (prisma _sum skips null values). -/
def sumValues (l : List Entry) : Int :=
  (l.map (fun e => e.value.getD 0)).sum

/-- Rows of one tracker having both startTime and endTime (the TIMER
aggregation filter). -/
def timerRows (entries : List Entry) (tid : Nat) : List Entry :=
  entries.filter (fun e => e.trackerId == tid && e.startTime.isSome && e.endTime.isSome)

/-- Rows of one tracker having a non-null value (the COUNTER and AMOUNT
aggregation filter). -/
def valueRows (entries : List Entry) (tid : Nat) : List Entry :=
  entries.filter (fun e => e.trackerId == tid && e.value.isSome)

/-- All rows of one tracker (the OCCURRENCE and CUSTOM count filter). -/
def trackerRows (entries : List Entry) (tid : Nat) : List Entry :=
  entries.filter (fun e => e.trackerId == tid)

/-- Transaction body of updateEntry (entries.ts lines 202 to 328): update the
row, recompute the duration when applicable, then fully recompute the owning
tracker statistics from aggregates. -/
def updateEntryTx (id : Nat) (u : UpdateEntryInput) (now : Int) (db : DB) :
    Except String (Nat × DB) :=
  match findEntry db id with
  | none => Except.error "Entry not found"
  | some originalEntry =>
    let db1 : DB := { db with entries := updateEntryById db.entries id (applyEntryUpdate u) }
    let trackerId := u.trackerId.getD originalEntry.trackerId
    let newStart := jsOrOpt (joinOpt u.startTime) originalEntry.startTime
    let newEnd := jsOrOpt (joinOpt u.endTime) originalEntry.endTime
    let db2 : DB :=
      if newStart.isSome && newEnd.isSome && !(jsTruthy (joinOpt u.value)) then
        match newStart, newEnd with
        | some s, some e =>
            { db1 with entries := updateEntryById db1.entries id (setEntryValue (durationSeconds s e)) }
        | _, _ => db1
      else db1
    match findTracker db2 trackerId with
    | none => Except.ok (id, db2)
    | some tracker =>
      let db3 : DB :=
        match tracker.ttype with
        | TrackerType.TIMER =>
          let rows := timerRows db2.entries trackerId
          let stats := writeStatsTimer (Int.ofNat rows.length) (sumValues rows)
          { db2 with trackers := updateById db2.trackers trackerId (setTrackerStats now stats) }
        | TrackerType.COUNTER | TrackerType.AMOUNT =>
          let rows := valueRows db2.entries trackerId
          let stats := writeStatsValue (Int.ofNat rows.length) (sumValues rows)
          { db2 with trackers := updateById db2.trackers trackerId (setTrackerStats now stats) }
        | TrackerType.OCCURRENCE | TrackerType.CUSTOM =>
          let rows := trackerRows db2.entries trackerId
          let stats : TrackerStatistics :=
            { totalEntries := Int.ofNat rows.length,
              totalTime := some 0, totalValue := some 0,
              totalCustom := some
                (((Option.bind tracker.statistics TrackerStatistics.totalCustom)).getD "") }
          { db2 with trackers := updateById db2.trackers trackerId (setTrackerStats now stats) }
      Except.ok (id, db3)

/-- updateEntry action (entries.ts lines 193 to 352). -/
def updateEntry (id : Nat) (u : UpdateEntryInput) (now : Int) (db : DB) :
    EntryActionResponse Nat × DB :=
  match validateUpdateEntry u with
  | Except.error msg =>
      (EntryActionResponse.failure ("Validation failed: " ++ msg), db)
  | Except.ok _ =>
    match updateEntryTx id u now db with
    | Except.ok (eid, db2) => (EntryActionResponse.success eid, db2)
    | Except.error _ => (EntryActionResponse.failure "Failed to update entry", db)

/-- getEntry action (entries.ts lines 171 to 188). -/
def getEntry (id : Nat) (db : DB) : EntryActionResponse Entry :=
  match findEntry db id with
  | none => EntryActionResponse.failure "Entry not found"
  | some entry => EntryActionResponse.success entry

/-- Comparator for orderBy date desc. -/
def dateDesc (a b : Entry) : Bool := b.date ≤ a.date

/-- getEntriesByTracker action (entries.ts lines 466 to 482): the tracker
rows ordered by date descending, truncated to limit (default 50); the payload
is only this list. -/
def getEntriesByTracker (trackerId : Nat) (limit : Nat := 50) (db : DB) :
    EntryActionResponse (List Entry) :=
  EntryActionResponse.success
    (((db.entries.filter (fun e => e.trackerId == trackerId)).mergeSort dateDesc).take limit)

/-- Transaction body of startTimerEntry (entries.ts lines 493 to 514). -/
def startTimerEntryTx (trackerId : Nat) (note : String) (now : Int) (db : DB) :
    Except String (Nat × DB) :=
  let eid := db.nextEntryId
  let entry : Entry :=
    { id := eid, trackerId := trackerId, startTime := some now, endTime := none,
      value := none, date := now, note := some note, tags := [] }
  let db1 : DB := { db with entries := db.entries ++ [entry], nextEntryId := eid + 1 }
  match findTracker db1 trackerId with
  | none => Except.error "Record to update not found"
  | some _ =>
    let trackersNew := updateById db1.trackers trackerId (setTrackerStatus now TrackerStatus.ACTIVE)
    Except.ok (eid, { db1 with trackers := trackersNew })

/-- startTimerEntry action (entries.ts lines 487 to 524). -/
def startTimerEntry (trackerId : Nat) (note : String) (now : Int) (db : DB) :
    EntryActionResponse Nat × DB :=
  match startTimerEntryTx trackerId note now db with
  | Except.ok (eid, db2) => (EntryActionResponse.success eid, db2)
  | Except.error _ => (EntryActionResponse.failure "Failed to start timer", db)

/-- Transaction body of stopTimerEntry (entries.ts lines 535 to 586). -/
def stopTimerEntryTx (entryId : Nat) (additionalNote : String) (now : Int) (db : DB) :
    Except String ((Nat × Int) × DB) :=
  match findEntry db entryId with
  | none => Except.error "Timer entry not found or invalid"
  | some currentEntry =>
    match currentEntry.startTime with
    | none => Except.error "Timer entry not found or invalid"
    | some startMs =>
      let updatedNote :=
        if additionalNote != "" then
          some (((currentEntry.note.getD "") ++ " " ++ additionalNote).trim)
        else currentEntry.note
      let duration := durationSeconds startMs now
      let setStop := fun (en : Entry) =>
        { en with endTime := some now, note := updatedNote, value := some duration }
      let db1 : DB := { db with entries := updateEntryById db.entries entryId setStop }
      let tracker := findTracker db1 currentEntry.trackerId
      match findTracker db1 currentEntry.trackerId with
      | none => Except.error "Record to update not found"
      | some _ =>
        let stats := writeStatsTimer
          (statTotalEntries (Option.bind tracker Tracker.statistics) + 1)
          (statTotalTime (Option.bind tracker Tracker.statistics) + duration)
        let trackersNew := updateById db1.trackers currentEntry.trackerId (setTrackerStopped now stats)
        Except.ok ((entryId, duration), { db1 with trackers := trackersNew })

/-- stopTimerEntry action (entries.ts lines 529 to 607): the catch clause
returns the message of a thrown Error as the failure string. -/
def stopTimerEntry (entryId : Nat) (additionalNote : String) (now : Int) (db : DB) :
    EntryActionResponse (Nat × Int) × DB :=
  match stopTimerEntryTx entryId additionalNote now db with
  | Except.ok (res, db2) => (EntryActionResponse.success res, db2)
  | Except.error msg => (EntryActionResponse.failure msg, db)

/-- Transaction body of addCounterEntry (entries.ts lines 619 to 649). -/
def addCounterEntryTx (trackerId : Nat) (value : Int) (note : String) (now : Int)
    (db : DB) : Except String (Nat × DB) :=
  let eid := db.nextEntryId
  let entry : Entry :=
    { id := eid, trackerId := trackerId, startTime := none, endTime := none,
      value := some value, date := now, note := some note, tags := [] }
  let db1 : DB := { db with entries := db.entries ++ [entry], nextEntryId := eid + 1 }
  let tracker := findTracker db1 trackerId
  match findTracker db1 trackerId with
  | none => Except.error "Record to update not found"
  | some _ =>
    let stats := writeStatsValue
      (statTotalEntries (Option.bind tracker Tracker.statistics) + 1)
      (statTotalValue (Option.bind tracker Tracker.statistics) + value)
    let trackersNew := updateById db1.trackers trackerId (setTrackerStats now stats)
    Except.ok (eid, { db1 with trackers := trackersNew })

/-- addCounterEntry action (entries.ts lines 612 to 659). -/
def addCounterEntry (trackerId : Nat) (value : Int) (note : String) (now : Int)
    (db : DB) : EntryActionResponse Nat × DB :=
  match addCounterEntryTx trackerId value note now db with
  | Except.ok (eid, db2) => (EntryActionResponse.success eid, db2)
  | Except.error _ => (EntryActionResponse.failure "Failed to add counter entry", db)

/-- The day, week and month rollup returned by getTrackerStats. -/
structure PeriodStats where
  today : Int
  week : Int
  month : Int
deriving DecidableEq, Repr

/-- Midnight local time of the current day: new Date(getFullYear, getMonth,
getDate) in a fixed-offset zone. -/
def todayStartOf (now : Int) : Int := msPerDay * Int.fdiv now msPerDay

/-- JS Date.getDay for a timestamp: days since the epoch plus 4 (1970-01-01
was a Thursday), modulo 7, giving 0 for Sunday up to 6 for Saturday. -/
def jsGetDay (t : Int) : Int := (Int.fdiv t msPerDay + 4) % 7

/-- Midnight of the most recent Sunday: setDate(getDate - getDay) applied to
midnight today. -/
def weekStartOf (now : Int) : Int :=
  todayStartOf now - msPerDay * jsGetDay (todayStartOf now)

/-- Midnight on the first of the current month: the civil calendar is not part
of the model, so the current day of month (1 up to 31) is an input, and the
month start lies dayOfMonth - 1 whole days before midnight today. -/
def monthStartOf (now : Int) (dayOfMonth : Nat) : Int :=
  todayStartOf now - msPerDay * ((dayOfMonth : Int) - 1)

/-- One time window of the getTrackerStats aggregation: rows of the tracker
with date at or after the window start, summed or counted per tracker type
(entries.ts lines 687 to 742). -/
def windowAgg (tt : TrackerType) (entries : List Entry) (tid : Nat) (start : Int) : Int :=
  match tt with
  | TrackerType.TIMER =>
      sumValues (entries.filter (fun e =>
        e.trackerId == tid && e.startTime.isSome && e.endTime.isSome
          && decide (start ≤ e.date)))
  | TrackerType.COUNTER | TrackerType.AMOUNT =>
      sumValues (entries.filter (fun e =>
        e.trackerId == tid && e.value.isSome && decide (start ≤ e.date)))
  | TrackerType.OCCURRENCE | TrackerType.CUSTOM =>
      Int.ofNat (entries.filter (fun e =>
        e.trackerId == tid && decide (start ≤ e.date))).length

/-- getTrackerStats action (entries.ts lines 664 to 752): each of the three
windows is aggregated independently with its own start. -/
def getTrackerStats (trackerId : Nat) (now : Int) (dayOfMonth : Nat) (db : DB) :
    EntryActionResponse PeriodStats :=
  match findTracker db trackerId with
  | none => EntryActionResponse.failure "Tracker not found"
  | some tracker =>
      EntryActionResponse.success
        { today := windowAgg tracker.ttype db.entries trackerId (todayStartOf now),
          week := windowAgg tracker.ttype db.entries trackerId (weekStartOf now),
          month := windowAgg tracker.ttype db.entries trackerId (monthStartOf now dayOfMonth) }

/-- Input of createTracker (TrackerSchema in trackers.ts; status is accepted
by the schema but overridden by the action). -/
structure CreateTrackerInput where
  name : String
  description : Option String := none
  ttype : TrackerType
  status : Option TrackerStatus := none
  tags : List String := []
  color : Option String := none
  icon : Option String := none
deriving DecidableEq, Repr

/-- A hexadecimal digit in either case. -/
def isHexChar (c : Char) : Bool :=
  c.isDigit || ('a' ≤ c && c ≤ 'f') || ('A' ≤ c && c ≤ 'F')

/-- The color regex of TrackerSchema: a hash sign followed by one or two
groups of three hex digits. -/
def isValidColor (s : String) : Bool :=
  (s.length == 4 || s.length == 7) && s.startsWith "#" && (s.drop 1).all isHexChar

/-- The TrackerSchema checks that can fail on a well-typed input. -/
def validateTracker (input : CreateTrackerInput) : Except String Unit :=
  if input.name.length < 1 then Except.error "Name is required"
  else if input.name.length > 50 then Except.error "Name cannot exceed 50 characters"
  else if (match input.description with
           | some d => decide (d.length > 200)
           | none => false) then Except.error "Description cannot exceed 200 characters"
  else if (match input.color with
           | some c => !(isValidColor c)
           | none => false) then Except.error "Invalid color format"
  else Except.ok ()

/-- The placeholder user id hardcoded by the tracker actions. -/
def placeholderUserId : String := "000000000000000000000001"

/-- createTracker action (trackers.ts): the validated input is spread into the
create call and its status is then overridden with INACTIVE, so the supplied
status and the schema default ACTIVE are both ignored. -/
def createTracker (input : CreateTrackerInput) (now : Int) (db : DB) :
    TrackerActionResponse Nat × DB :=
  match validateTracker input with
  | Except.error msg =>
      (TrackerActionResponse.failure ("Validation failed: " ++ msg), db)
  | Except.ok _ =>
    let tid := db.nextTrackerId
    let tracker : Tracker :=
      { id := tid, name := input.name, description := input.description,
        ttype := input.ttype, status := TrackerStatus.INACTIVE,
        tags := input.tags, color := input.color, icon := input.icon,
        createdAt := now, updatedAt := now, userId := placeholderUserId,
        statistics := none }
    (TrackerActionResponse.success tid,
      { db with trackers := db.trackers ++ [tracker], nextTrackerId := tid + 1 })

/-- getTracker action (trackers.ts): the tracker together with its five most
recent entries. -/
def getTracker (id : Nat) (db : DB) : TrackerActionResponse (Tracker × List Entry) :=
  match findTracker db id with
  | none => TrackerActionResponse.failure "Tracker not found"
  | some t =>
      TrackerActionResponse.success
        (t, (((db.entries.filter (fun e => e.trackerId == id)).mergeSort dateDesc).take 5))

/-- Input of updateTracker (TrackerSchema.partial note). -/
structure UpdateTrackerInput where
  name : Option String := none
  description : Option (Option String) := none
  ttype : Option TrackerType := none
  status : Option TrackerStatus := none
  tags : Option (List String) := none
  color : Option (Option String) := none
  icon : Option (Option String) := none
deriving DecidableEq, Repr

/-- The partial TrackerSchema checks that can fail on a well-typed input. -/
def validateUpdateTracker (u : UpdateTrackerInput) : Except String Unit :=
  if (match u.name with | some n => decide (n.length < 1) | _ => false) then
    Except.error "Name is required"
  else if (match u.name with | some n => decide (n.length > 50) | _ => false) then
    Except.error "Name cannot exceed 50 characters"
  else if (match u.description with
           | some (some d) => decide (d.length > 200)
           | _ => false) then Except.error "Description cannot exceed 200 characters"
  else if (match u.color with
           | some (some c) => !(isValidColor c)
           | _ => false) then Except.error "Invalid color format"
  else Except.ok ()

/-- prisma.tracker.update data clause: apply exactly the present fields. -/
def applyTrackerUpdate (u : UpdateTrackerInput) (now : Int) (t : Tracker) : Tracker :=
  { t with name := u.name.getD t.name,
           description := u.description.getD t.description,
           ttype := u.ttype.getD t.ttype,
           status := u.status.getD t.status,
           tags := u.tags.getD t.tags,
           color := u.color.getD t.color,
           icon := u.icon.getD t.icon,
           updatedAt := now }

/-- updateTracker action (trackers.ts). -/
def updateTracker (id : Nat) (u : UpdateTrackerInput) (now : Int) (db : DB) :
    TrackerActionResponse Nat × DB :=
  match validateUpdateTracker u with
  | Except.error msg =>
      (TrackerActionResponse.failure ("Validation failed: " ++ msg), db)
  | Except.ok _ =>
    match findTracker db id with
    | none => (TrackerActionResponse.failure "Failed to update tracker", db)
    | some _ =>
        (TrackerActionResponse.success id,
          { db with trackers := updateById db.trackers id (applyTrackerUpdate u now) })

/-- deleteTracker action (trackers.ts): prisma cascade-deletes the entries of
the tracker (schema.prisma, onDelete Cascade). -/
def deleteTracker (id : Nat) (db : DB) : TrackerActionResponse Nat × DB :=
  match findTracker db id with
  | none => (TrackerActionResponse.failure "Failed to delete tracker", db)
  | some _ =>
      (TrackerActionResponse.success id,
        { db with trackers := db.trackers.filter (fun t => !(t.id == id)),
                  entries := db.entries.filter (fun e => !(e.trackerId == id)) })

/-- Filters of getTrackers (trackers.ts). -/
structure GetTrackersFilters where
  status : Option TrackerStatus := none
  ttype : Option TrackerType := none
  search : Option String := none
  sort : Option String := none
  page : Option Int := none
  limit : Option Int := none
deriving DecidableEq, Repr

/-- Case-insensitive substring test, modelling the prisma contains clause with
insensitive mode (the needle is nonempty at every use site). -/
def containsInsensitive (hay needle : String) : Bool :=
  2 ≤ ((hay.toLower).splitOn (needle.toLower)).length

/-- The where clause built by getTrackers: each filter clause is added only
when the filter value is truthy. -/
def matchesWhere (f : GetTrackersFilters) (t : Tracker) : Bool :=
  (match f.status with
   | some st => t.status == st
   | none => true) &&
  (match f.ttype with
   | some ty => t.ttype == ty
   | none => true) &&
  (match f.search with
   | some s =>
     if s == "" then true
     else containsInsensitive t.name s
       || containsInsensitive (t.description.getD "") s
       || t.tags.contains s
   | none => true)

/-- The orderBy clause of getTrackers: name ascending, created descending, or
the default updated descending. -/
def trackerSortLe (sort : Option String) (a b : Tracker) : Bool :=
  match sort with
  | some "name" => !(b.name < a.name)
  | some "created" => b.createdAt ≤ a.createdAt
  | _ => b.updatedAt ≤ a.updatedAt

/-- Paged payload of getTrackers, each tracker carrying its entry count. -/
structure TrackerPagingResponse where
  trackers : List (Tracker × Nat)
  total : Int
  totalPages : Int
  page : Int
deriving DecidableEq, Repr

/-- The relation _count of entries per tracker. -/
def entriesCountOf (db : DB) (tid : Nat) : Nat :=
  (db.entries.filter (fun e => e.trackerId == tid)).length

/-- getTrackers action (trackers.ts): filter, sort, count, paginate. -/
def getTrackers (f : GetTrackersFilters) (db : DB) :
    TrackerActionResponse TrackerPagingResponse :=
  let page : Int := match f.page with
    | some p => if 0 < p then p else 1
    | none => 1
  let limit : Int := match f.limit with
    | some l => if 0 < l then l else 10
    | none => 10
  let skip := (page - 1) * limit
  let filtered := db.trackers.filter (matchesWhere f)
  let total : Int := Int.ofNat filtered.length
  let totalPages : Int := (total + limit - 1) / limit
  let sorted := filtered.mergeSort (trackerSortLe f.sort)
  let pageItems := (sorted.drop skip.toNat).take limit.toNat
  TrackerActionResponse.success
    { trackers := pageItems.map (fun t => (t, entriesCountOf db t.id)),
      total := total, totalPages := totalPages, page := page }

/-- An entry action result is a well-formed envelope: either success with a
payload or failure with a nonempty human-readable message. -/
def isEntryEnvelope {α : Type} (r : EntryActionResponse α) : Prop :=
  (∃ d, r = EntryActionResponse.success d) ∨
  (∃ msg, r = EntryActionResponse.failure msg ∧ 0 < msg.length)

/-- A tracker action result is a well-formed envelope: either success with a
payload or failure with a nonempty human-readable message. -/
def isTrackerEnvelope {α : Type} (r : TrackerActionResponse α) : Prop :=
  (∃ d, r = TrackerActionResponse.success d) ∨
  (∃ msg, r = TrackerActionResponse.failure msg ∧ 0 < msg.length)

/-! Concrete fixtures used by counterexamples and witnesses. -/

/-- A TIMER tracker with zeroed statistics. -/
def exTimerTracker : Tracker :=
  { id := 1, name := "t", description := none, ttype := TrackerType.TIMER,
    status := TrackerStatus.INACTIVE, tags := [], color := none, icon := none,
    createdAt := 0, updatedAt := 0, userId := "u",
    statistics := some { totalEntries := 0, totalTime := some 0,
                         totalValue := some 0, totalCustom := some "" } }

/-- A store holding only the zeroed TIMER tracker. -/
def exTimerDB : DB :=
  { trackers := [exTimerTracker], entries := [], nextTrackerId := 2, nextEntryId := 100 }

/-- A createEntry input whose startTime equals its endTime. -/
def exZeroDurationInput : CreateEntryInput :=
  { trackerId := 1, startTime := some 0, endTime := some 0, date := 0 }

/-- A createEntry input for a completed one-second timer session. -/
def exOneSecondInput : CreateEntryInput :=
  { trackerId := 1, startTime := some 0, endTime := some 1000, date := 0 }

/-- A COUNTER tracker with no statistics object yet. -/
def exCounterTracker : Tracker :=
  { id := 2, name := "c", description := none, ttype := TrackerType.COUNTER,
    status := TrackerStatus.INACTIVE, tags := [], color := none, icon := none,
    createdAt := 0, updatedAt := 0, userId := "u", statistics := none }

/-- A store holding only the COUNTER tracker. -/
def exCounterDB : DB :=
  { trackers := [exCounterTracker], entries := [], nextTrackerId := 3, nextEntryId := 1 }

/-- A plain value entry input for the COUNTER tracker. -/
def exCounterInput (v : Int) : CreateEntryInput :=
  { trackerId := 2, value := some v, date := 0 }

/-- The store after creating values 5, -3 and 2 on the COUNTER tracker. -/
def exCounterSeqDB : DB :=
  (createEntry (exCounterInput 2) 0
    (createEntry (exCounterInput (-3)) 0
      (createEntry (exCounterInput 5) 0 exCounterDB).2).2).2

/-- A store holding an entry whose owning tracker is missing. -/
def exOrphanDB : DB :=
  { trackers := [],
    entries := [{ id := 5, trackerId := 99, startTime := none, endTime := none,
                  value := some 1, date := 0, note := none, tags := [] }],
    nextTrackerId := 1, nextEntryId := 6 }

/-- An input aimed at the missing tracker of exOrphanDB. -/
def exOrphanInput : CreateEntryInput := { trackerId := 99, value := some 1, date := 0 }

/-- An AMOUNT tracker whose statistics agree with its single entry of value 10. -/
def exAmountTracker : Tracker :=
  { id := 3, name := "a", description := none, ttype := TrackerType.AMOUNT,
    status := TrackerStatus.INACTIVE, tags := [], color := none, icon := none,
    createdAt := 0, updatedAt := 0, userId := "u",
    statistics := some { totalEntries := 1, totalTime := some 0,
                         totalValue := some 10, totalCustom := some "" } }

/-- The single entry of value 10 belonging to the AMOUNT tracker. -/
def exAmountEntry : Entry :=
  { id := 7, trackerId := 3, startTime := none, endTime := none,
    value := some 10, date := 0, note := none, tags := [] }

/-- A store holding the AMOUNT tracker and its value-10 entry. -/
def exAmountDB : DB :=
  { trackers := [exAmountTracker], entries := [exAmountEntry],
    nextTrackerId := 4, nextEntryId := 8 }

/-- The updateEntry input changing only the value to 15. -/
def exValueTo15 : UpdateEntryInput := { value := some (some 15) }

/-- An OCCURRENCE tracker for the period-aggregation witness. -/
def exOccTracker : Tracker :=
  { id := 4, name := "o", description := none, ttype := TrackerType.OCCURRENCE,
    status := TrackerStatus.INACTIVE, tags := [], color := none, icon := none,
    createdAt := 0, updatedAt := 0, userId := "u", statistics := none }

/-- A 40-day-old entry of the OCCURRENCE tracker. -/
def exOldEntry : Entry :=
  { id := 9, trackerId := 4, startTime := none, endTime := none,
    value := none, date := -40 * msPerDay, note := none, tags := [] }

/-- A store holding the OCCURRENCE tracker with one fresh entry. -/
def exOccDB : DB :=
  { trackers := [exOccTracker],
    entries := [{ id := 10, trackerId := 4, startTime := none, endTime := none,
                  value := none, date := 0, note := none, tags := [] }],
    nextTrackerId := 5, nextEntryId := 11 }

/-- One pagination fixture entry of the tracker with id 1. -/
def exPageEntry (i : Nat) (d : Int) : Entry :=
  { id := i, trackerId := 1, startTime := none, endTime := none,
    value := none, date := d, note := none, tags := [] }

/-- A store with three entries for tracker 1, already in descending date order. -/
def exPageDB : DB :=
  { trackers := [], entries := [exPageEntry 1 30, exPageEntry 2 20, exPageEntry 3 10],
    nextTrackerId := 1, nextEntryId := 4 }

/-- A createTracker input that explicitly asks for ACTIVE status. -/
def exActiveTrackerInput : CreateTrackerInput :=
  { name := "n", ttype := TrackerType.TIMER, status := some TrackerStatus.ACTIVE }

/-- The create-then-delete round trip restores all three totals of the owning
tracker and leaves them nonnegative. -/
def roundTripRestores (db : DB) (input : CreateEntryInput) (now1 now2 : Int) : Prop :=
  trackerTotalEntries (deleteEntry db.nextEntryId now2 (createEntry input now1 db).2).2
      input.trackerId = trackerTotalEntries db input.trackerId ∧
  trackerTotalTime (deleteEntry db.nextEntryId now2 (createEntry input now1 db).2).2
      input.trackerId = trackerTotalTime db input.trackerId ∧
  trackerTotalValue (deleteEntry db.nextEntryId now2 (createEntry input now1 db).2).2
      input.trackerId = trackerTotalValue db input.trackerId ∧
  0 ≤ trackerTotalEntries (deleteEntry db.nextEntryId now2 (createEntry input now1 db).2).2
      input.trackerId ∧
  0 ≤ trackerTotalTime (deleteEntry db.nextEntryId now2 (createEntry input now1 db).2).2
      input.trackerId ∧
  0 ≤ trackerTotalValue (deleteEntry db.nextEntryId now2 (createEntry input now1 db).2).2
      input.trackerId

/-! Helper lemmas about the keyed-list store. -/

theorem find?_updateById (l : List Tracker) (tid : Nat) (f : Tracker → Tracker)
    (hf : ∀ x : Tracker, (f x).id = x.id) :
    (updateById l tid f).find? (fun t => t.id == tid) =
      Option.map f (l.find? (fun t => t.id == tid)) := by
  induction l with
  | nil => rfl
  | cons x xs ih =>
      simp only [updateById, List.map_cons] at *
      by_cases h : (x.id == tid) = true
      · rw [if_pos h,
          List.find?_cons_of_pos (p := fun (t : Tracker) => t.id == tid) _
            (show ((f x).id == tid) = true by rw [hf x]; exact h),
          List.find?_cons_of_pos (p := fun (t : Tracker) => t.id == tid) _ h]
        rfl
      · rw [if_neg h, List.find?_cons_of_neg _ (by simp [h]),
          List.find?_cons_of_neg _ (by simp [h]), ih]

theorem find?_entries_updateEntryById (l : List Entry) (eid : Nat) (f : Entry → Entry)
    (hf : ∀ x : Entry, (f x).id = x.id) :
    (updateEntryById l eid f).find? (fun e => e.id == eid) =
      Option.map f (l.find? (fun e => e.id == eid)) := by
  induction l with
  | nil => rfl
  | cons x xs ih =>
      simp only [updateEntryById, List.map_cons] at *
      by_cases h : (x.id == eid) = true
      · rw [if_pos h,
          List.find?_cons_of_pos (p := fun (e : Entry) => e.id == eid) _
            (show ((f x).id == eid) = true by rw [hf x]; exact h),
          List.find?_cons_of_pos (p := fun (e : Entry) => e.id == eid) _ h]
        rfl
      · rw [if_neg h, List.find?_cons_of_neg _ (by simp [h]),
          List.find?_cons_of_neg _ (by simp [h]), ih]

theorem updateEntryById_of_no_match (l : List Entry) (eid : Nat) (f : Entry → Entry)
    (h : ∀ e ∈ l, (e.id == eid) = false) : updateEntryById l eid f = l := by
  induction l with
  | nil => rfl
  | cons x xs ih =>
      simp only [updateEntryById, List.map_cons] at *
      rw [if_neg (by simp [h x (by simp)]), ih (fun e he => h e (by simp [he]))]

theorem agg_updateEntryById (g : Entry → Int) (eid : Nat) (f : Entry → Entry) :
    ∀ (l : List Entry), (l.map Entry.id).Nodup →
      ∀ e0, l.find? (fun e => e.id == eid) = some e0 →
      ((updateEntryById l eid f).map g).sum = (l.map g).sum - g e0 + g (f e0) := by
  intro l
  induction l with
  | nil => intro _ e0 h; simp at h
  | cons x xs ih =>
      intro hnodup e0 hfind
      simp only [List.map_cons, List.nodup_cons] at hnodup
      by_cases h : (x.id == eid) = true
      · rw [List.find?_cons_of_pos (p := fun (e : Entry) => e.id == eid) xs h] at hfind
        injection hfind with hx
        subst hx
        have hxs : updateEntryById xs eid f = xs := by
          apply updateEntryById_of_no_match
          intro e he
          by_contra hc
          simp only [Bool.not_eq_false, beq_iff_eq] at hc
          have hxid : x.id = eid := beq_iff_eq.mp h
          have hmem : e.id ∈ List.map Entry.id xs := List.mem_map_of_mem Entry.id he
          rw [hc, ← hxid] at hmem
          exact hnodup.1 hmem
        simp only [updateEntryById, List.map_cons, if_pos h] at *
        rw [hxs]
        simp only [List.map_cons, List.sum_cons]
        ring
      · rw [List.find?_cons_of_neg (p := fun (e : Entry) => e.id == eid) xs (by simp [h])] at hfind
        have := ih hnodup.2 e0 hfind
        simp only [updateEntryById, List.map_cons, if_neg h] at *
        simp only [List.sum_cons, this]
        ring

theorem count_updateEntryById (p : Entry → Bool) (eid : Nat) (f : Entry → Entry) :
    ∀ (l : List Entry), (l.map Entry.id).Nodup →
      ∀ e0, l.find? (fun e => e.id == eid) = some e0 →
      p e0 = true → p (f e0) = true →
      (List.filter p (updateEntryById l eid f)).length = (List.filter p l).length := by
  intro l
  induction l with
  | nil => intro _ e0 h; simp at h
  | cons x xs ih =>
      intro hnodup e0 hfind hpe hpf
      simp only [List.map_cons, List.nodup_cons] at hnodup
      by_cases h : (x.id == eid) = true
      · rw [List.find?_cons_of_pos (p := fun (e : Entry) => e.id == eid) xs h] at hfind
        injection hfind with hx
        subst hx
        have hxs : updateEntryById xs eid f = xs := by
          apply updateEntryById_of_no_match
          intro e he
          by_contra hc
          simp only [Bool.not_eq_false, beq_iff_eq] at hc
          have hxid : x.id = eid := beq_iff_eq.mp h
          have hmem : e.id ∈ List.map Entry.id xs := List.mem_map_of_mem Entry.id he
          rw [hc, ← hxid] at hmem
          exact hnodup.1 hmem
        simp only [updateEntryById, List.map_cons, if_pos h] at *
        rw [hxs, List.filter_cons, List.filter_cons, hpe, hpf]
        simp
      · rw [List.find?_cons_of_neg (p := fun (e : Entry) => e.id == eid) xs (by simp [h])] at hfind
        have := ih hnodup.2 e0 hfind hpe hpf
        simp only [updateEntryById, List.map_cons, if_neg h] at *
        rw [List.filter_cons, List.filter_cons]
        cases hpx : p x
        · simpa [hpx] using this
        · simpa [hpx] using this

theorem sumValues_filter (p : Entry → Bool) (l : List Entry) :
    sumValues (l.filter p) =
      (l.map (fun e => if p e then e.value.getD 0 else 0)).sum := by
  induction l with
  | nil => rfl
  | cons x xs ih =>
      by_cases h : p x
      · simp [sumValues, List.filter_cons, h] at *
        simp [ih]
      · simp [sumValues, List.filter_cons, h] at *
        simp [ih]

theorem length_filter_intSum (p : Entry → Bool) (l : List Entry) :
    Int.ofNat (l.filter p).length =
      (l.map (fun e => if p e then (1 : Int) else 0)).sum := by
  induction l with
  | nil => rfl
  | cons x xs ih =>
      by_cases h : p x
      · simp [List.filter_cons, h, ← ih]
        omega
      · simp [List.filter_cons, h, ← ih]

theorem find?_eq_none_of_forall {α : Type} (p : α → Bool) (l : List α)
    (h : ∀ a ∈ l, p a = false) : l.find? p = none := by
  induction l with
  | nil => rfl
  | cons x xs ih =>
      rw [List.find?_cons_of_neg _ (by simp [h x (by simp)])]
      exact ih (fun a ha => h a (by simp [ha]))

@[simp] theorem bumpUpdatedAt_id (now : Int) (t : Tracker) :
    (bumpUpdatedAt now t).id = t.id := rfl

@[simp] theorem bumpUpdatedAt_ttype (now : Int) (t : Tracker) :
    (bumpUpdatedAt now t).ttype = t.ttype := rfl

@[simp] theorem bumpUpdatedAt_statistics (now : Int) (t : Tracker) :
    (bumpUpdatedAt now t).statistics = t.statistics := rfl

@[simp] theorem setTrackerStats_id (now : Int) (st : TrackerStatistics) (t : Tracker) :
    (setTrackerStats now st t).id = t.id := rfl

@[simp] theorem setTrackerStats_ttype (now : Int) (st : TrackerStatistics) (t : Tracker) :
    (setTrackerStats now st t).ttype = t.ttype := rfl

@[simp] theorem setTrackerStats_statistics (now : Int) (st : TrackerStatistics) (t : Tracker) :
    (setTrackerStats now st t).statistics = some st := rfl

@[simp] theorem setTrackerStatus_id (now : Int) (st : TrackerStatus) (t : Tracker) :
    (setTrackerStatus now st t).id = t.id := rfl

@[simp] theorem setTrackerStatus_statistics (now : Int) (st : TrackerStatus) (t : Tracker) :
    (setTrackerStatus now st t).statistics = t.statistics := rfl

@[simp] theorem setTrackerStopped_id (now : Int) (st : TrackerStatistics) (t : Tracker) :
    (setTrackerStopped now st t).id = t.id := rfl

@[simp] theorem setTrackerStopped_statistics (now : Int) (st : TrackerStatistics) (t : Tracker) :
    (setTrackerStopped now st t).statistics = some st := rfl

@[simp] theorem setEntryValue_id (v : Int) (e : Entry) : (setEntryValue v e).id = e.id := rfl

@[simp] theorem setEntryValue_trackerId (v : Int) (e : Entry) :
    (setEntryValue v e).trackerId = e.trackerId := rfl

@[simp] theorem setEntryValue_value (v : Int) (e : Entry) :
    (setEntryValue v e).value = some v := rfl

@[simp] theorem setEntryValue_date (v : Int) (e : Entry) :
    (setEntryValue v e).date = e.date := rfl

@[simp] theorem find?_updateById_bump (l : List Tracker) (tid : Nat) (now : Int) :
    (updateById l tid (bumpUpdatedAt now)).find? (fun t => t.id == tid) =
      Option.map (bumpUpdatedAt now) (l.find? (fun t => t.id == tid)) :=
  find?_updateById _ _ _ (fun _ => rfl)

@[simp] theorem find?_updateById_setStats (l : List Tracker) (tid : Nat) (now : Int)
    (st : TrackerStatistics) :
    (updateById l tid (setTrackerStats now st)).find? (fun t => t.id == tid) =
      Option.map (setTrackerStats now st) (l.find? (fun t => t.id == tid)) :=
  find?_updateById _ _ _ (fun _ => rfl)

@[simp] theorem find?_updateById_setStatus (l : List Tracker) (tid : Nat) (now : Int)
    (st : TrackerStatus) :
    (updateById l tid (setTrackerStatus now st)).find? (fun t => t.id == tid) =
      Option.map (setTrackerStatus now st) (l.find? (fun t => t.id == tid)) :=
  find?_updateById _ _ _ (fun _ => rfl)

@[simp] theorem find?_updateById_setStopped (l : List Tracker) (tid : Nat) (now : Int)
    (st : TrackerStatistics) :
    (updateById l tid (setTrackerStopped now st)).find? (fun t => t.id == tid) =
      Option.map (setTrackerStopped now st) (l.find? (fun t => t.id == tid)) :=
  find?_updateById _ _ _ (fun _ => rfl)

@[simp] theorem find?_updateEntryById_setValue (l : List Entry) (eid : Nat) (v : Int) :
    (updateEntryById l eid (setEntryValue v)).find? (fun e => e.id == eid) =
      Option.map (setEntryValue v) (l.find? (fun e => e.id == eid)) :=
  find?_entries_updateEntryById _ _ _ (fun _ => rfl)

@[simp] theorem newEntryOf_id (input : CreateEntryInput) (eid : Nat) :
    (newEntryOf input eid).id = eid := rfl

@[simp] theorem newEntryOf_trackerId (input : CreateEntryInput) (eid : Nat) :
    (newEntryOf input eid).trackerId = input.trackerId := rfl

@[simp] theorem newEntryOf_startTime (input : CreateEntryInput) (eid : Nat) :
    (newEntryOf input eid).startTime = input.startTime := rfl

@[simp] theorem newEntryOf_endTime (input : CreateEntryInput) (eid : Nat) :
    (newEntryOf input eid).endTime = input.endTime := rfl

@[simp] theorem newEntryOf_value (input : CreateEntryInput) (eid : Nat) :
    (newEntryOf input eid).value = input.value := rfl

@[simp] theorem setEntryValue_startTime (v : Int) (e : Entry) :
    (setEntryValue v e).startTime = e.startTime := rfl

@[simp] theorem setEntryValue_endTime (v : Int) (e : Entry) :
    (setEntryValue v e).endTime = e.endTime := rfl

@[simp] theorem applyEntryUpdate_id (u : UpdateEntryInput) (e : Entry) :
    (applyEntryUpdate u e).id = e.id := rfl

@[simp] theorem applyEntryUpdate_trackerId (u : UpdateEntryInput) (e : Entry) :
    (applyEntryUpdate u e).trackerId = u.trackerId.getD e.trackerId := rfl

@[simp] theorem applyEntryUpdate_value (u : UpdateEntryInput) (e : Entry) :
    (applyEntryUpdate u e).value = u.value.getD e.value := rfl

@[simp] theorem statTotalEntries_writeStatsTimer (a b : Int) :
    statTotalEntries (some (writeStatsTimer a b)) = a := rfl

@[simp] theorem statTotalTime_writeStatsTimer (a b : Int) :
    statTotalTime (some (writeStatsTimer a b)) = b := rfl

@[simp] theorem statTotalValue_writeStatsTimer (a b : Int) :
    statTotalValue (some (writeStatsTimer a b)) = 0 := rfl

@[simp] theorem statTotalEntries_writeStatsValue (a b : Int) :
    statTotalEntries (some (writeStatsValue a b)) = a := rfl

@[simp] theorem statTotalTime_writeStatsValue (a b : Int) :
    statTotalTime (some (writeStatsValue a b)) = 0 := rfl

@[simp] theorem statTotalValue_writeStatsValue (a b : Int) :
    statTotalValue (some (writeStatsValue a b)) = b := rfl

theorem durationSeconds_eq_ediv (s e : Int) :
    durationSeconds s e = (e - s + 500) / 1000 :=
  Int.fdiv_eq_ediv _ (by decide)

/-- Evaluation of the createEntry transaction on a COUNTER or AMOUNT tracker
with a plain value input. -/
theorem createEntryTx_value_eval (input : CreateEntryInput) (now v : Int) (db : DB)
    (t : Tracker)
    (hfind : findTracker db input.trackerId = some t)
    (htype : t.ttype = TrackerType.COUNTER ∨ t.ttype = TrackerType.AMOUNT)
    (hv : input.value = some v)
    (hst : input.startTime = none) :
    createEntryTx input now db = Except.ok (db.nextEntryId,
      { trackers := updateById (updateById db.trackers input.trackerId (bumpUpdatedAt now))
          input.trackerId
          (setTrackerStats now (writeStatsValue (statTotalEntries t.statistics + 1)
            (statTotalValue t.statistics + v))),
        entries := db.entries ++ [newEntryOf input db.nextEntryId],
        nextTrackerId := db.nextTrackerId,
        nextEntryId := db.nextEntryId + 1 }) := by
  simp only [findTracker] at hfind
  rcases htype with hty | hty <;>
    simp [createEntryTx, hv, hst, findTracker, hfind, hty]

/-- Evaluation of the createEntry transaction on a TIMER tracker with both
timestamps given and no explicit value. -/
theorem createEntryTx_timer_eval (input : CreateEntryInput) (now s e : Int) (db : DB)
    (t : Tracker)
    (hfind : findTracker db input.trackerId = some t)
    (htype : t.ttype = TrackerType.TIMER)
    (hs : input.startTime = some s)
    (he : input.endTime = some e)
    (hv : input.value = none) :
    createEntryTx input now db = Except.ok (db.nextEntryId,
      { trackers := updateById (updateById db.trackers input.trackerId (bumpUpdatedAt now))
          input.trackerId
          (setTrackerStats now (writeStatsTimer (statTotalEntries t.statistics + 1)
            (statTotalTime t.statistics + durationSeconds s e))),
        entries := updateEntryById (db.entries ++ [newEntryOf input db.nextEntryId])
          db.nextEntryId (setEntryValue (durationSeconds s e)),
        nextTrackerId := db.nextTrackerId,
        nextEntryId := db.nextEntryId + 1 }) := by
  simp only [findTracker] at hfind
  simp [createEntryTx, hs, he, hv, jsTruthy, findTracker, hfind, htype]

/-- Stats effect of createEntry on a TIMER tracker when both timestamps are
present, for an arbitrary value field. -/
theorem createEntry_timer_stats (input : CreateEntryInput) (now s e : Int) (db : DB)
    (t : Tracker)
    (hval : validateEntry input = Except.ok ())
    (hfind : findTracker db input.trackerId = some t)
    (htype : t.ttype = TrackerType.TIMER)
    (hs : input.startTime = some s)
    (he : input.endTime = some e) :
    (createEntry input now db).1 = EntryActionResponse.success db.nextEntryId ∧
    trackerTotalEntries (createEntry input now db).2 input.trackerId
      = trackerTotalEntries db input.trackerId + 1 ∧
    trackerTotalTime (createEntry input now db).2 input.trackerId
      = trackerTotalTime db input.trackerId + durationSeconds s e := by
  simp only [findTracker] at hfind
  have hbaseE : trackerTotalEntries db input.trackerId = statTotalEntries t.statistics := by
    simp [trackerTotalEntries, findTracker, hfind]
  have hbaseT : trackerTotalTime db input.trackerId = statTotalTime t.statistics := by
    simp [trackerTotalTime, findTracker, hfind]
  rw [hbaseE, hbaseT]
  simp [createEntry, hval, createEntryTx, hs, he, apply_ite DB.trackers,
    findTracker, hfind, htype, trackerTotalEntries, trackerTotalTime]

/-- C4 (claims file): on a TIMER tracker, createEntry with both timestamps and
endTime strictly after startTime increments totalEntries by one and adds the
duration in whole seconds to totalTime; when the difference is a whole number
of seconds the added duration is exactly (endTime - startTime) / 1000. -/
theorem claim4_timer_completed_create (input : CreateEntryInput) (now s e : Int)
    (db : DB) (t : Tracker)
    (hval : validateEntry input = Except.ok ())
    (hfind : findTracker db input.trackerId = some t)
    (htype : t.ttype = TrackerType.TIMER)
    (hs : input.startTime = some s)
    (he : input.endTime = some e)
    (_hlt : s < e) :
    (createEntry input now db).1 = EntryActionResponse.success db.nextEntryId ∧
    trackerTotalEntries (createEntry input now db).2 input.trackerId
      = trackerTotalEntries db input.trackerId + 1 ∧
    trackerTotalTime (createEntry input now db).2 input.trackerId
      = trackerTotalTime db input.trackerId + durationSeconds s e ∧
    ((e - s) % 1000 = 0 → durationSeconds s e = (e - s) / 1000) := by
  obtain ⟨h1, h2, h3⟩ := createEntry_timer_stats input now s e db t hval hfind htype hs he
  refine ⟨h1, h2, h3, fun hmod => ?_⟩
  rw [durationSeconds_eq_ediv]
  omega

/-- Witness of claim4_timer_completed_create at a concrete one-second session. -/
theorem claim4_timer_completed_create_witness :
    (createEntry exOneSecondInput 0 exTimerDB).1
      = EntryActionResponse.success exTimerDB.nextEntryId ∧
    trackerTotalEntries (createEntry exOneSecondInput 0 exTimerDB).2 1
      = trackerTotalEntries exTimerDB 1 + 1 ∧
    trackerTotalTime (createEntry exOneSecondInput 0 exTimerDB).2 1
      = trackerTotalTime exTimerDB 1 + durationSeconds 0 1000 ∧
    (((1000 : Int) - 0) % 1000 = 0 → durationSeconds 0 1000 = ((1000 : Int) - 0) / 1000) :=
  claim4_timer_completed_create exOneSecondInput 0 0 1000 exTimerDB exTimerTracker
    rfl rfl rfl rfl rfl (by decide)

/-- C1 (claims file) counterexample: on a zeroed TIMER tracker, createEntry
with startTime equal to endTime leaves totalTime unchanged but raises
totalEntries from 0 to 1, so the statistics do not stay unchanged. -/
theorem claim1_counterexample :
    trackerTotalEntries exTimerDB 1 = 0 ∧
    trackerTotalEntries (createEntry exZeroDurationInput 0 exTimerDB).2 1 = 1 ∧
    trackerTotalTime (createEntry exZeroDurationInput 0 exTimerDB).2 1
      = trackerTotalTime exTimerDB 1 ∧
    trackerTotalEntries (createEntry exZeroDurationInput 0 exTimerDB).2 1
      ≠ trackerTotalEntries exTimerDB 1 := by
  decide

/-- C1 amended: on a TIMER tracker, createEntry with startTime equal to
endTime leaves totalTime unchanged (the rounded duration is zero) but still
increments totalEntries by one, because the code counts every entry carrying
both timestamps. -/
theorem claim1_timer_zero_duration (input : CreateEntryInput) (now x : Int)
    (db : DB) (t : Tracker)
    (hval : validateEntry input = Except.ok ())
    (hfind : findTracker db input.trackerId = some t)
    (htype : t.ttype = TrackerType.TIMER)
    (hs : input.startTime = some x)
    (he : input.endTime = some x) :
    trackerTotalEntries (createEntry input now db).2 input.trackerId
      = trackerTotalEntries db input.trackerId + 1 ∧
    trackerTotalTime (createEntry input now db).2 input.trackerId
      = trackerTotalTime db input.trackerId := by
  obtain ⟨_, h2, h3⟩ := createEntry_timer_stats input now x x db t hval hfind htype hs he
  have hzero : durationSeconds x x = 0 := by
    rw [durationSeconds_eq_ediv]; omega
  rw [hzero] at h3
  exact ⟨h2, by omega⟩

/-- Witness of claim1_timer_zero_duration at the concrete zero-length session. -/
theorem claim1_timer_zero_duration_witness :
    trackerTotalEntries (createEntry exZeroDurationInput 0 exTimerDB).2 1
      = trackerTotalEntries exTimerDB 1 + 1 ∧
    trackerTotalTime (createEntry exZeroDurationInput 0 exTimerDB).2 1
      = trackerTotalTime exTimerDB 1 :=
  claim1_timer_zero_duration exZeroDurationInput 0 0 exTimerDB exTimerTracker
    rfl rfl rfl rfl rfl

/-- C5 (claims file): for COUNTER and AMOUNT trackers, createEntry with a
present (possibly negative) value increments totalEntries by one and adds the
value to totalValue; creating values 5, -3 and 2 from zeroed statistics gives
totalValue 4 and totalEntries 3. -/
theorem claim5_counter_amount_create (input : CreateEntryInput) (now v : Int)
    (db : DB) (t : Tracker)
    (hval : validateEntry input = Except.ok ())
    (hfind : findTracker db input.trackerId = some t)
    (htype : t.ttype = TrackerType.COUNTER ∨ t.ttype = TrackerType.AMOUNT)
    (hv : input.value = some v) :
    ((createEntry input now db).1 = EntryActionResponse.success db.nextEntryId ∧
     trackerTotalEntries (createEntry input now db).2 input.trackerId
       = trackerTotalEntries db input.trackerId + 1 ∧
     trackerTotalValue (createEntry input now db).2 input.trackerId
       = trackerTotalValue db input.trackerId + v) ∧
    (trackerTotalValue exCounterSeqDB 2 = 4 ∧ trackerTotalEntries exCounterSeqDB 2 = 3) := by
  constructor
  · simp only [findTracker] at hfind
    have hbaseE : trackerTotalEntries db input.trackerId = statTotalEntries t.statistics := by
      simp [trackerTotalEntries, findTracker, hfind]
    have hbaseV : trackerTotalValue db input.trackerId = statTotalValue t.statistics := by
      simp [trackerTotalValue, findTracker, hfind]
    rw [hbaseE, hbaseV]
    rcases htype with hty | hty <;>
      cases hst : input.startTime <;> cases het : input.endTime <;>
        simp [createEntry, hval, createEntryTx, hv, hst, het, jsTruthy,
          apply_ite DB.trackers, findTracker, hfind, hty,
          trackerTotalEntries, trackerTotalValue]
  · exact ⟨by decide, by decide⟩

/-- Witness of claim5_counter_amount_create at the concrete COUNTER tracker. -/
theorem claim5_counter_amount_create_witness :
    (((createEntry (exCounterInput 5) 0 exCounterDB).1
        = EntryActionResponse.success exCounterDB.nextEntryId ∧
      trackerTotalEntries (createEntry (exCounterInput 5) 0 exCounterDB).2 2
        = trackerTotalEntries exCounterDB 2 + 1 ∧
      trackerTotalValue (createEntry (exCounterInput 5) 0 exCounterDB).2 2
        = trackerTotalValue exCounterDB 2 + 5) ∧
     (trackerTotalValue exCounterSeqDB 2 = 4 ∧ trackerTotalEntries exCounterSeqDB 2 = 3)) :=
  claim5_counter_amount_create (exCounterInput 5) 0 5 exCounterDB exCounterTracker
    rfl rfl (Or.inl rfl) rfl

/-- Round trip on a COUNTER or AMOUNT tracker: deleting the just-created value
entry restores the totals, provided they were nonnegative before. -/
theorem roundTrip_value_restores (db : DB) (input : CreateEntryInput) (t : Tracker)
    (now1 now2 v : Int)
    (hval : validateEntry input = Except.ok ())
    (hfind : findTracker db input.trackerId = some t)
    (hfresh : ∀ en ∈ db.entries, (en.id == db.nextEntryId) = false)
    (hE : 0 ≤ trackerTotalEntries db input.trackerId)
    (hty : t.ttype = TrackerType.COUNTER ∨ t.ttype = TrackerType.AMOUNT)
    (hv : input.value = some v) (hst : input.startTime = none)
    (hV : 0 ≤ trackerTotalValue db input.trackerId)
    (hT : trackerTotalTime db input.trackerId = 0) :
    roundTripRestores db input now1 now2 := by
  have hcreate := createEntryTx_value_eval input now1 v db t hfind hty hv hst
  simp only [findTracker] at hfind
  have hbaseE : trackerTotalEntries db input.trackerId = statTotalEntries t.statistics := by
    simp [trackerTotalEntries, findTracker, hfind]
  have hbaseV : trackerTotalValue db input.trackerId = statTotalValue t.statistics := by
    simp [trackerTotalValue, findTracker, hfind]
  have hbaseT : trackerTotalTime db input.trackerId = statTotalTime t.statistics := by
    simp [trackerTotalTime, findTracker, hfind]
  rw [hbaseE] at hE
  rw [hbaseV] at hV
  rw [hbaseT] at hT
  rcases hty with hty2 | hty2 <;>
  · unfold roundTripRestores
    rw [hbaseE, hbaseV, hbaseT]
    simp only [createEntry, hval, hcreate]
    simp only [deleteEntry, deleteEntryTx, findEntry, List.find?_append,
      find?_eq_none_of_forall _ _ hfresh, Option.none_or, List.find?_cons,
      newEntryOf_id, beq_self_eq_true, newEntryOf_trackerId, newEntryOf_value,
      newEntryOf_startTime, newEntryOf_endTime, findTracker, hfind,
      find?_updateById_bump, find?_updateById_setStats, Option.map_some,
      setTrackerStats_ttype, bumpUpdatedAt_ttype, hty2,
      setTrackerStats_statistics, statTotalEntries_writeStatsValue,
      statTotalValue_writeStatsValue, statTotalTime_writeStatsValue, hv, hst,
      trackerTotalEntries, trackerTotalTime, trackerTotalValue]
    simp [jsTruthy, hty2, hT, max_eq_right hE, max_eq_right hV, hE, hV,
      trackerTotalEntries, trackerTotalTime, trackerTotalValue, findTracker, hfind]

/-- Round trip on a TIMER tracker: deleting the just-created completed session
restores the totals, provided the rounded duration is at least one second and
the totals were nonnegative before. -/
theorem roundTrip_timer_restores (db : DB) (input : CreateEntryInput) (t : Tracker)
    (now1 now2 s e : Int)
    (hval : validateEntry input = Except.ok ())
    (hfind : findTracker db input.trackerId = some t)
    (hfresh : ∀ en ∈ db.entries, (en.id == db.nextEntryId) = false)
    (hE : 0 ≤ trackerTotalEntries db input.trackerId)
    (hty : t.ttype = TrackerType.TIMER)
    (hs : input.startTime = some s) (he : input.endTime = some e)
    (hv : input.value = none)
    (hd : 1 ≤ durationSeconds s e)
    (hT : 0 ≤ trackerTotalTime db input.trackerId)
    (hV : trackerTotalValue db input.trackerId = 0) :
    roundTripRestores db input now1 now2 := by
  have hcreate := createEntryTx_timer_eval input now1 s e db t hfind hty hs he hv
  simp only [findTracker] at hfind
  have hbaseE : trackerTotalEntries db input.trackerId = statTotalEntries t.statistics := by
    simp [trackerTotalEntries, findTracker, hfind]
  have hbaseV : trackerTotalValue db input.trackerId = statTotalValue t.statistics := by
    simp [trackerTotalValue, findTracker, hfind]
  have hbaseT : trackerTotalTime db input.trackerId = statTotalTime t.statistics := by
    simp [trackerTotalTime, findTracker, hfind]
  rw [hbaseE] at hE
  rw [hbaseV] at hV
  rw [hbaseT] at hT
  have hdneq : (durationSeconds s e != 0) = true := by
    simp only [bne_iff_ne, ne_eq]
    omega
  unfold roundTripRestores
  rw [hbaseE, hbaseV, hbaseT]
  simp only [createEntry, hval, hcreate]
  simp only [deleteEntry, deleteEntryTx, findEntry, find?_updateEntryById_setValue,
    List.find?_append, find?_eq_none_of_forall _ _ hfresh, Option.none_or,
    List.find?_cons, newEntryOf_id, beq_self_eq_true, Option.map_some,
    setEntryValue_trackerId, setEntryValue_startTime, setEntryValue_endTime,
    setEntryValue_value, newEntryOf_trackerId, newEntryOf_startTime,
    newEntryOf_endTime, findTracker, hfind, find?_updateById_bump,
    find?_updateById_setStats, setTrackerStats_ttype, bumpUpdatedAt_ttype, hty,
    setTrackerStats_statistics, statTotalEntries_writeStatsTimer,
    statTotalTime_writeStatsTimer, statTotalValue_writeStatsTimer, hs, he]
  simp [jsTruthy, hdneq, hty, hs, he, hV, max_eq_right hE, max_eq_right hT, hE, hT,
    trackerTotalEntries, trackerTotalTime, trackerTotalValue, findTracker, hfind]

/-- C2 (claims file) counterexample: a create-then-delete round trip does not
restore the totals.  On a zeroed TIMER tracker, creating an entry with
startTime equal to endTime counts it (totalEntries becomes 1), but deleting it
skips the statistics adjustment because its stored duration 0 is falsy, so
totalEntries stays 1 instead of returning to 0. -/
theorem claim2_counterexample :
    trackerTotalEntries exTimerDB 1 = 0 ∧
    (deleteEntry 100 0 (createEntry exZeroDurationInput 0 exTimerDB).2).1
      = EntryActionResponse.success 100 ∧
    trackerTotalEntries
        (deleteEntry 100 0 (createEntry exZeroDurationInput 0 exTimerDB).2).2 1 = 1 ∧
    trackerTotalEntries
        (deleteEntry 100 0 (createEntry exZeroDurationInput 0 exTimerDB).2).2 1
      ≠ trackerTotalEntries exTimerDB 1 := by
  decide

/-- C2 amended: the create-then-delete round trip restores totalEntries,
totalTime and totalValue and leaves them nonnegative, provided the totals were
nonnegative before, the off-type total was zero, and the entry genuinely
contributes: a COUNTER or AMOUNT entry with a present value and no startTime,
or a TIMER entry with both timestamps, no explicit value, and a rounded
duration of at least one second. -/
theorem claim2_delete_roundtrip (db : DB) (input : CreateEntryInput) (t : Tracker)
    (now1 now2 : Int)
    (hval : validateEntry input = Except.ok ())
    (hfind : findTracker db input.trackerId = some t)
    (hfresh : ∀ en ∈ db.entries, (en.id == db.nextEntryId) = false)
    (hE : 0 ≤ trackerTotalEntries db input.trackerId) :
    ((t.ttype = TrackerType.COUNTER ∨ t.ttype = TrackerType.AMOUNT) →
      ∀ v : Int, input.value = some v → input.startTime = none →
        0 ≤ trackerTotalValue db input.trackerId →
        trackerTotalTime db input.trackerId = 0 →
        roundTripRestores db input now1 now2) ∧
    (t.ttype = TrackerType.TIMER →
      ∀ s e : Int, input.startTime = some s → input.endTime = some e →
        input.value = none → 1 ≤ durationSeconds s e →
        0 ≤ trackerTotalTime db input.trackerId →
        trackerTotalValue db input.trackerId = 0 →
        roundTripRestores db input now1 now2) :=
  ⟨fun hty v hv hst hV hT =>
      roundTrip_value_restores db input t now1 now2 v hval hfind hfresh hE hty hv hst hV hT,
    fun hty s e hs he hv hd hT hV =>
      roundTrip_timer_restores db input t now1 now2 s e hval hfind hfresh hE hty hs he hv hd hT hV⟩

/-- Witness of claim2_delete_roundtrip: both branches at concrete stores, a
value 5 entry on the COUNTER tracker and a one-second session on the TIMER
tracker. -/
theorem claim2_delete_roundtrip_witness :
    roundTripRestores exCounterDB (exCounterInput 5) 0 0 ∧
    roundTripRestores exTimerDB exOneSecondInput 0 0 :=
  ⟨(claim2_delete_roundtrip exCounterDB (exCounterInput 5) exCounterTracker 0 0
      rfl rfl (by simp [exCounterDB]) (by decide)).1
      (Or.inl rfl) 5 rfl rfl (by decide) (by decide),
    (claim2_delete_roundtrip exTimerDB exOneSecondInput exTimerTracker 0 0
      rfl rfl (by simp [exTimerDB]) (by decide)).2
      rfl 0 1000 rfl rfl rfl (by decide) (by decide) (by decide)⟩

/-- C3 (claims file): when the owning tracker cannot be found during the
statistics update, createEntry and deleteEntry fail as a whole: the thrown
error rolls the transaction back, the action returns a failure envelope, and
the store is returned unchanged. -/
theorem claim3_atomic_failure (db : DB) (input : CreateEntryInput) (eid : Nat) (now : Int)
    (hval : validateEntry input = Except.ok ()) :
    (findTracker db input.trackerId = none →
      createEntry input now db
        = (EntryActionResponse.failure "Failed to create entry", db)) ∧
    (∀ en : Entry, findEntry db eid = some en → findTracker db en.trackerId = none →
      deleteEntry eid now db
        = (EntryActionResponse.failure "Failed to delete entry", db)) := by
  constructor
  · intro hnone
    simp only [findTracker] at hnone
    cases hst : input.startTime <;> cases het : input.endTime <;>
      simp [createEntry, hval, createEntryTx, hst, het, findTracker, hnone,
        apply_ite DB.trackers]
  · intro en hen hnone
    simp [deleteEntry, deleteEntryTx, hen, hnone]

/-- Witness of claim3_atomic_failure on a store whose lone entry points at a
missing tracker. -/
theorem claim3_atomic_failure_witness :
    createEntry exOrphanInput 0 exOrphanDB
      = (EntryActionResponse.failure "Failed to create entry", exOrphanDB) ∧
    deleteEntry 5 0 exOrphanDB
      = (EntryActionResponse.failure "Failed to delete entry", exOrphanDB) := by
  have h := claim3_atomic_failure exOrphanDB exOrphanInput 5 0 rfl
  exact ⟨h.1 rfl, h.2 ⟨5, 99, none, none, some 1, 0, none, []⟩ rfl rfl⟩

/-- C6 (claims file): on an AMOUNT tracker, updateEntry recomputes the
statistics from aggregates over all of the tracker's value-bearing rows (the
post-state totals equal the recomputed sums), and updating one entry's value
from 10 to 15 raises totalValue by exactly 5 and leaves totalEntries
unchanged, given statistics consistent with the entry set beforehand. -/
theorem claim6_update_full_recompute (db : DB) (t : Tracker) (e0 : Entry) (eid : Nat) (now : Int)
    (hent : findEntry db eid = some e0)
    (hfind : findTracker db e0.trackerId = some t)
    (hty : t.ttype = TrackerType.AMOUNT)
    (hval10 : e0.value = some 10)
    (hnodup : (db.entries.map Entry.id).Nodup)
    (hconsV : trackerTotalValue db e0.trackerId = sumValues (valueRows db.entries e0.trackerId))
    (hconsE : trackerTotalEntries db e0.trackerId
      = Int.ofNat (valueRows db.entries e0.trackerId).length) :
    (updateEntry eid exValueTo15 now db).1 = EntryActionResponse.success eid ∧
    trackerTotalValue (updateEntry eid exValueTo15 now db).2 e0.trackerId
      = trackerTotalValue db e0.trackerId + 5 ∧
    trackerTotalEntries (updateEntry eid exValueTo15 now db).2 e0.trackerId
      = trackerTotalEntries db e0.trackerId ∧
    trackerTotalValue (updateEntry eid exValueTo15 now db).2 e0.trackerId
      = sumValues (valueRows (updateEntry eid exValueTo15 now db).2.entries e0.trackerId) ∧
    trackerTotalEntries (updateEntry eid exValueTo15 now db).2 e0.trackerId
      = Int.ofNat (valueRows (updateEntry eid exValueTo15 now db).2.entries e0.trackerId).length := by
  simp only [findEntry] at hent
  simp only [findTracker] at hfind
  have hpe : (fun (e : Entry) => e.trackerId == e0.trackerId && e.value.isSome) e0 = true := by
    simp [hval10]
  have hpf : (fun (e : Entry) => e.trackerId == e0.trackerId && e.value.isSome)
      (applyEntryUpdate exValueTo15 e0) = true := by
    simp [applyEntryUpdate_trackerId, applyEntryUpdate_value,
      show exValueTo15.trackerId = none from rfl,
      show exValueTo15.value = some (some 15) from rfl]
  have hsum := agg_updateEntryById
    (fun e => if (e.trackerId == e0.trackerId && e.value.isSome) then e.value.getD 0 else 0)
    eid (applyEntryUpdate exValueTo15) db.entries hnodup e0 hent
  have hcnt := count_updateEntryById
    (fun e => e.trackerId == e0.trackerId && e.value.isSome)
    eid (applyEntryUpdate exValueTo15) db.entries hnodup e0 hent hpe hpf
  rw [← sumValues_filter, ← sumValues_filter] at hsum
  simp only [hpe, hpf, if_true, if_pos] at hsum
  simp only [hval10, Option.getD_some, applyEntryUpdate_value,
    show exValueTo15.value = some (some 15) from rfl] at hsum
  have hV2 : statTotalValue t.statistics = sumValues (valueRows db.entries e0.trackerId) := by
    rw [← hconsV]
    simp [trackerTotalValue, findTracker, hfind]
  have hE2 : statTotalEntries t.statistics
      = Int.ofNat (valueRows db.entries e0.trackerId).length := by
    rw [← hconsE]
    simp [trackerTotalEntries, findTracker, hfind]
  simp only [valueRows, Int.ofNat_eq_natCast] at hV2 hE2
  have hvalid : validateUpdateEntry exValueTo15 = Except.ok () := rfl
  have hA : exValueTo15.trackerId = none := rfl
  have hB : joinOpt exValueTo15.startTime = none := rfl
  have hC : joinOpt exValueTo15.endTime = none := rfl
  have hD : joinOpt exValueTo15.value = some 15 := rfl
  refine ⟨?_, ?_, ?_, ?_, ?_⟩ <;>
    simp [updateEntry, hvalid, updateEntryTx, findEntry, hent, hA, hB, hC, hD,
      jsOrOpt, jsTruthy, findTracker, hfind, hty,
      valueRows, trackerTotalValue, trackerTotalEntries, Int.ofNat_eq_natCast] <;>
    omega

/-- Witness of claim6_update_full_recompute at the concrete AMOUNT tracker. -/
theorem claim6_update_full_recompute_witness :
    (updateEntry 7 exValueTo15 0 exAmountDB).1 = EntryActionResponse.success 7 ∧
    trackerTotalValue (updateEntry 7 exValueTo15 0 exAmountDB).2 3
      = trackerTotalValue exAmountDB 3 + 5 ∧
    trackerTotalEntries (updateEntry 7 exValueTo15 0 exAmountDB).2 3
      = trackerTotalEntries exAmountDB 3 ∧
    trackerTotalValue (updateEntry 7 exValueTo15 0 exAmountDB).2 3
      = sumValues (valueRows (updateEntry 7 exValueTo15 0 exAmountDB).2.entries 3) ∧
    trackerTotalEntries (updateEntry 7 exValueTo15 0 exAmountDB).2 3
      = Int.ofNat (valueRows (updateEntry 7 exValueTo15 0 exAmountDB).2.entries 3).length :=
  claim6_update_full_recompute exAmountDB exAmountTracker exAmountEntry 7 0
    rfl rfl rfl rfl (by decide) (by decide) (by decide)

theorem windowAgg_cons_lt (tt : TrackerType) (l : List Entry) (tid : Nat)
    (start : Int) (en : Entry) (h : en.date < start) :
    windowAgg tt (en :: l) tid start = windowAgg tt l tid start := by
  have hnle : ¬ (start ≤ en.date) := not_le.mpr h
  cases tt <;> simp [windowAgg, sumValues, List.filter_cons, hnle]

/-- C7 (claims file): getTrackerStats aggregates each of the three windows
independently over entries with date at or after the window start (midnight
today, the most recent Sunday midnight, the first of the month); an entry 40
days old lies before all three starts, so adding it to the store changes none
of the outputs. -/
theorem claim7_period_windows (db : DB) (tid : Nat) (en : Entry) (now : Int) (dom : Nat)
    (h1 : 1 ≤ dom) (h2 : dom ≤ 31)
    (hold : en.date ≤ now - 40 * msPerDay) :
    getTrackerStats tid now dom { db with entries := en :: db.entries } =
      getTrackerStats tid now dom db := by
  have key := Int.fdiv_add_fmod now 86400000
  have hm0 : 0 ≤ Int.fmod now 86400000 := Int.fmod_nonneg' now (by decide)
  have hm1 : Int.fmod now 86400000 < 86400000 := Int.fmod_lt_of_pos now (by decide)
  simp only [msPerDay] at hold
  have htoday : en.date < todayStartOf now := by
    simp only [todayStartOf, msPerDay]
    omega
  have hweek : en.date < weekStartOf now := by
    have hdow0 : 0 ≤ jsGetDay (todayStartOf now) := Int.emod_nonneg _ (by decide)
    have hdow6 : jsGetDay (todayStartOf now) < 7 := Int.emod_lt_of_pos _ (by decide)
    simp only [weekStartOf, todayStartOf, jsGetDay, msPerDay] at *
    omega
  have hmonth : en.date < monthStartOf now dom := by
    simp only [monthStartOf, todayStartOf, msPerDay] at *
    omega
  have hsame : findTracker { db with entries := en :: db.entries } tid
      = findTracker db tid := rfl
  cases hf : findTracker db tid with
  | none => simp [getTrackerStats, hsame, hf]
  | some tr =>
      simp [getTrackerStats, hsame, hf, windowAgg_cons_lt _ _ _ _ _ htoday,
        windowAgg_cons_lt _ _ _ _ _ hweek, windowAgg_cons_lt _ _ _ _ _ hmonth]

/-- Witness of claim7_period_windows: the 40-day-old entry added to the
OCCURRENCE store leaves getTrackerStats unchanged at noon with day of month
15. -/
theorem claim7_period_windows_witness :
    getTrackerStats 4 (12 * 3600000) 15 { exOccDB with entries := exOldEntry :: exOccDB.entries }
      = getTrackerStats 4 (12 * 3600000) 15 exOccDB :=
  claim7_period_windows exOccDB 4 exOldEntry (12 * 3600000) 15
    (by decide) (by decide) (by decide)

theorem length_append_pos (a b : String) (ha : 0 < a.length) : 0 < (a ++ b).length := by
  rw [String.length_append]
  omega

theorem envelopeE_success {α : Type} (d : α) :
    isEntryEnvelope (EntryActionResponse.success d) := Or.inl ⟨d, rfl⟩

theorem envelopeE_failure {α : Type} (msg : String) (h : 0 < msg.length) :
    isEntryEnvelope (EntryActionResponse.failure (α := α) msg) := Or.inr ⟨msg, rfl, h⟩

theorem envelopeT_success {α : Type} (d : α) :
    isTrackerEnvelope (TrackerActionResponse.success d) := Or.inl ⟨d, rfl⟩

theorem envelopeT_failure {α : Type} (msg : String) (h : 0 < msg.length) :
    isTrackerEnvelope (TrackerActionResponse.failure (α := α) msg) := Or.inr ⟨msg, rfl, h⟩

theorem stopTimerEntryTx_error_length (eid : Nat) (note : String) (now : Int) (db : DB)
    (msg : String) (h : stopTimerEntryTx eid note now db = Except.error msg) :
    0 < msg.length := by
  unfold stopTimerEntryTx at h
  split at h
  · cases h
    decide
  · split at h
    · cases h
      decide
    · simp only [] at h
      split at h
      · cases h
        decide
      · cases h

/-- C8 (claims file): every modelled entry and tracker action, on every input
and store, returns an envelope: success with a payload or failure with a
nonempty human-readable message; no action throws across the boundary (every
action is a total function into the envelope type). -/
theorem claim8_envelope :
    (∀ (input : CreateEntryInput) (now : Int) (db : DB),
      isEntryEnvelope (createEntry input now db).1) ∧
    (∀ (id : Nat) (db : DB), isEntryEnvelope (getEntry id db)) ∧
    (∀ (id : Nat) (u : UpdateEntryInput) (now : Int) (db : DB),
      isEntryEnvelope (updateEntry id u now db).1) ∧
    (∀ (id : Nat) (now : Int) (db : DB), isEntryEnvelope (deleteEntry id now db).1) ∧
    (∀ (tid limit : Nat) (db : DB), isEntryEnvelope (getEntriesByTracker tid limit db)) ∧
    (∀ (tid : Nat) (note : String) (now : Int) (db : DB),
      isEntryEnvelope (startTimerEntry tid note now db).1) ∧
    (∀ (eid : Nat) (note : String) (now : Int) (db : DB),
      isEntryEnvelope (stopTimerEntry eid note now db).1) ∧
    (∀ (tid : Nat) (v : Int) (note : String) (now : Int) (db : DB),
      isEntryEnvelope (addCounterEntry tid v note now db).1) ∧
    (∀ (tid : Nat) (now : Int) (dom : Nat) (db : DB),
      isEntryEnvelope (getTrackerStats tid now dom db)) ∧
    (∀ (input : CreateTrackerInput) (now : Int) (db : DB),
      isTrackerEnvelope (createTracker input now db).1) ∧
    (∀ (id : Nat) (db : DB), isTrackerEnvelope (getTracker id db)) ∧
    (∀ (id : Nat) (u : UpdateTrackerInput) (now : Int) (db : DB),
      isTrackerEnvelope (updateTracker id u now db).1) ∧
    (∀ (id : Nat) (db : DB), isTrackerEnvelope (deleteTracker id db).1) ∧
    (∀ (f : GetTrackersFilters) (db : DB), isTrackerEnvelope (getTrackers f db)) := by
  refine ⟨?_, ?_, ?_, ?_, ?_, ?_, ?_, ?_, ?_, ?_, ?_, ?_, ?_, ?_⟩
  · intro input now db
    unfold createEntry
    cases hval : validateEntry input with
    | error msg => exact envelopeE_failure _ (length_append_pos _ _ (by decide))
    | ok u =>
        cases htx : createEntryTx input now db with
        | ok p => exact envelopeE_success _
        | error msg => exact envelopeE_failure _ (by decide)
  · intro id db
    unfold getEntry
    cases hfe : findEntry db id with
    | none => exact envelopeE_failure _ (by decide)
    | some en => exact envelopeE_success _
  · intro id u now db
    unfold updateEntry
    cases hval : validateUpdateEntry u with
    | error msg => exact envelopeE_failure _ (length_append_pos _ _ (by decide))
    | ok _ =>
        cases htx : updateEntryTx id u now db with
        | ok p => exact envelopeE_success _
        | error msg => exact envelopeE_failure _ (by decide)
  · intro id now db
    unfold deleteEntry
    cases htx : deleteEntryTx id now db with
    | ok p => exact envelopeE_success _
    | error msg => exact envelopeE_failure _ (by decide)
  · intro tid limit db
    exact envelopeE_success _
  · intro tid note now db
    unfold startTimerEntry
    cases htx : startTimerEntryTx tid note now db with
    | ok p => exact envelopeE_success _
    | error msg => exact envelopeE_failure _ (by decide)
  · intro eid note now db
    unfold stopTimerEntry
    cases htx : stopTimerEntryTx eid note now db with
    | ok p => exact envelopeE_success _
    | error msg => exact envelopeE_failure _ (stopTimerEntryTx_error_length _ _ _ _ _ htx)
  · intro tid v note now db
    unfold addCounterEntry
    cases htx : addCounterEntryTx tid v note now db with
    | ok p => exact envelopeE_success _
    | error msg => exact envelopeE_failure _ (by decide)
  · intro tid now dom db
    unfold getTrackerStats
    cases hft : findTracker db tid with
    | none => exact envelopeE_failure _ (by decide)
    | some tr => exact envelopeE_success _
  · intro input now db
    unfold createTracker
    cases hval : validateTracker input with
    | error msg => exact envelopeT_failure _ (length_append_pos _ _ (by decide))
    | ok _ => exact envelopeT_success _
  · intro id db
    unfold getTracker
    cases hft : findTracker db id with
    | none => exact envelopeT_failure _ (by decide)
    | some tr => exact envelopeT_success _
  · intro id u now db
    unfold updateTracker
    cases hval : validateUpdateTracker u with
    | error msg => exact envelopeT_failure _ (length_append_pos _ _ (by decide))
    | ok _ =>
        cases hft : findTracker db id with
        | none => exact envelopeT_failure _ (by decide)
        | some tr => exact envelopeT_success _
  · intro id db
    unfold deleteTracker
    cases hft : findTracker db id with
    | none => exact envelopeT_failure _ (by decide)
    | some tr => exact envelopeT_success _
  · intro f db
    exact envelopeT_success _

/-- C9 (claims file) counterexample: getEntriesByTracker takes only a tracker
id and a limit (no page parameter) and its success payload is just the
truncated entry list: with limit 2 and three stored entries the payload is
the two-entry list and carries no total count (2 is not 3). -/
theorem claim9_counterexample :
    getEntriesByTracker 1 2 exPageDB
      = EntryActionResponse.success [exPageEntry 1 30, exPageEntry 2 20] ∧
    (exPageDB.entries.filter (fun e => e.trackerId == 1)).length = 3 ∧
    [exPageEntry 1 30, exPageEntry 2 20].length ≠ 3 := by
  have hfilter : exPageDB.entries.filter (fun e => e.trackerId == 1)
      = [exPageEntry 1 30, exPageEntry 2 20, exPageEntry 3 10] := by decide
  have hsorted : List.Pairwise (fun a b => dateDesc a b)
      [exPageEntry 1 30, exPageEntry 2 20, exPageEntry 3 10] := by
    simp [List.pairwise_cons, dateDesc, exPageEntry]
  have hms := List.mergeSort_of_sorted hsorted
  refine ⟨?_, by decide, by decide⟩
  show EntryActionResponse.success
      (((exPageDB.entries.filter (fun e => e.trackerId == 1)).mergeSort dateDesc).take 2) = _
  rw [hfilter, hms]
  rfl

/-- C9 amended: getEntriesByTracker takes a tracker id and a limit (default
50, no page parameter) and always succeeds with only the list of that
tracker's entries, sorted by date descending and truncated to the limit; the
payload carries no total count. -/
theorem claim9_entries_payload (tid limit : Nat) (db : DB) :
    ∃ L : List Entry, getEntriesByTracker tid limit db = EntryActionResponse.success L ∧
      L.length = min limit (db.entries.filter (fun e => e.trackerId == tid)).length ∧
      (∀ x ∈ L, x ∈ db.entries ∧ x.trackerId = tid) ∧
      L.Pairwise (fun a b => b.date ≤ a.date) := by
  refine ⟨_, rfl, ?_, ?_, ?_⟩
  · rw [List.length_take, List.length_mergeSort]
  · intro x hx
    have hx1 := List.take_subset _ _ hx
    rw [List.mem_mergeSort] at hx1
    have hx2 := List.mem_filter.mp hx1
    exact ⟨hx2.1, by simpa using hx2.2⟩
  · have htrans : ∀ a b c : Entry, dateDesc a b → dateDesc b c → dateDesc a c := by
      intro a b c
      simp only [dateDesc, decide_eq_true_eq]
      omega
    have htotal : ∀ a b : Entry, dateDesc a b || dateDesc b a := by
      intro a b
      simp only [dateDesc, Bool.or_eq_true, decide_eq_true_eq]
      omega
    have hs := List.sorted_mergeSort htrans htotal
      (db.entries.filter (fun e => e.trackerId == tid))
    have hs2 := List.Pairwise.sublist (List.take_sublist limit _) hs
    exact hs2.imp (by intro a b; simp [dateDesc])

/-- C10 (claims file): a tracker created by createTracker is persisted with
status INACTIVE regardless of the status supplied by the caller (the action
overrides the spread input) and despite the schema default being ACTIVE. -/
theorem claim10_tracker_created_inactive (input : CreateTrackerInput) (now : Int)
    (db : DB)
    (hval : validateTracker input = Except.ok ())
    (hfresh : ∀ t ∈ db.trackers, (t.id == db.nextTrackerId) = false) :
    ∃ t : Tracker,
      (createTracker input now db).1 = TrackerActionResponse.success db.nextTrackerId ∧
      findTracker (createTracker input now db).2 db.nextTrackerId = some t ∧
      t.status = TrackerStatus.INACTIVE ∧
      trackerStatusDefault = TrackerStatus.ACTIVE := by
  refine ⟨{ id := db.nextTrackerId, name := input.name, description := input.description,
            ttype := input.ttype, status := TrackerStatus.INACTIVE, tags := input.tags,
            color := input.color, icon := input.icon, createdAt := now, updatedAt := now,
            userId := placeholderUserId, statistics := none }, ?_, ?_, rfl, rfl⟩
  · simp [createTracker, hval]
  · simp [createTracker, hval, findTracker, List.find?_append,
      find?_eq_none_of_forall _ _ hfresh]

/-- Witness of claim10_tracker_created_inactive: the caller asks for ACTIVE
status and the stored tracker is INACTIVE anyway. -/
theorem claim10_tracker_created_inactive_witness :
    ∃ t : Tracker,
      (createTracker exActiveTrackerInput 0 exPageDB).1
        = TrackerActionResponse.success exPageDB.nextTrackerId ∧
      findTracker (createTracker exActiveTrackerInput 0 exPageDB).2
        exPageDB.nextTrackerId = some t ∧
      t.status = TrackerStatus.INACTIVE ∧
      trackerStatusDefault = TrackerStatus.ACTIVE :=
  claim10_tracker_created_inactive exActiveTrackerInput 0 exPageDB rfl
    (by simp [exPageDB])

end HTracker
